import Mathlib

/-!
Verification of the two-stage gear-reduction design-space search
(`material_check.py`, `gear_optimizer.py`, `kimi_proposal_single.py`,
`kimi_proposal_speed.py`) against its natural-language specification.

Modelling conventions, used throughout:

* Python floats are modelled as exact rationals (`ℚ`).  None of the checked
  properties hinges on binary rounding; they are about the structure of the
  arithmetic (which torque feeds which stress, which gate feeds which flag).
* `float('inf')`, which the code uses as a deliberate sentinel, is modelled by
  the type `FloatVal` (a rational or `inf`), with comparison and division
  operations mirroring IEEE behaviour on the values that actually occur
  (no NaN ever arises at the modelled call sites).
* Python `dict`s are modelled as insertion-ordered association lists; indexing
  a missing key is a `KeyError`, modelled in the `Except PyError` monad.
* Python tuple *unpacking* is arity-checked at run time; where a function's
  whole tuple result is unpacked (in `material_check.check_material`) we model
  the returned tuple as a `List` and the unpacking as `unpack2` / `unpack4`,
  which raise `ValueError` on an arity mismatch exactly like Python.
* `round` is Python 3 `round`: banker's rounding (half to even).
* The tooth-root factor `sf_factor = π/2·cos α − 2·1.25·tan α` is a
  transcendental function of the pressure angle, evaluated once by the code;
  we abstract it as an explicit rational parameter `sf_factor`.  For the
  default pressure angle of 20° its float64 value is ≈ 0.5660711,
  strictly between 0.55 and 0.7; every concrete instantiation below uses a
  rational in that range, for which every catalog root-thickness gate decides
  exactly as it does at the true value (the catalog thresholds are
  0.3, 0.5, 0.55, 0.7, 0.8, 0.9 and 1.0).
* The helix-angle parameters of `material_check.py` are fixed at their
  default `0.0` (the only value any modelled call site passes); the dead
  `helix_angle > 0` branches involve trigonometry and are not modelled.
-/

deriving instance DecidableEq for Except

/-- Python runtime errors that the modelled code can raise. -/
inductive PyError where
  | valueError
  | keyError
deriving DecidableEq

/-- A Python float value as it occurs in this code base: a finite value
(modelled exactly as a rational) or the `float('inf')` sentinel. -/
inductive FloatVal where
  | fin (q : ℚ)
  | inf
deriving DecidableEq, Inhabited

namespace FloatVal

/-- Python `<=` on floats, restricted to the values occurring here. -/
def le : FloatVal → FloatVal → Bool
  | fin a, fin b => decide (a ≤ b)
  | fin _, inf => true
  | inf, fin _ => false
  | inf, inf => true

/-- Python `<` on floats, restricted to the values occurring here. -/
def lt : FloatVal → FloatVal → Bool
  | fin a, fin b => decide (a < b)
  | fin _, inf => true
  | _, _ => false

/-- One step of Python `max`: keep the current best unless the new value is
strictly greater (so the first maximal element encountered wins). -/
def fmax (a b : FloatVal) : FloatVal := if lt a b then b else a

/-- Python float division on the values occurring at the modelled call sites:
every division by a finite value in the source is guarded to have a positive
denominator (Python would raise `ZeroDivisionError` on zero), and
`finite / inf = 0.0`, `inf / finite-positive = inf` as in IEEE. -/
def fdiv : FloatVal → FloatVal → FloatVal
  | fin a, fin b => fin (a / b)
  | fin _, inf => fin 0
  | inf, fin _ => inf
  | inf, inf => inf

end FloatVal

/-- The exact rational value of the float64 constant `math.pi`,
namely `884279719003555 / 2^48`. -/
def mathPi : ℚ := 884279719003555 / 281474976710656

/-- Python 3 `round` on an exact rational: round half to even, returning an
integer (the source only ever rounds quotients of positive quantities). -/
def pyRound (q : ℚ) : ℤ :=
  let f : ℤ := Int.fdiv q.num q.den
  let r : ℚ := q - (f : ℚ)
  if r < 1/2 then f
  else if 1/2 < r then f + 1
  else if f % 2 = 0 then f else f + 1

/-- Python `range(start, stop, step)` for a positive step (nonnegative
bounds, as used by every diameter grid in the source). -/
def rangeStep (start stop step : ℕ) : List ℕ :=
  (List.range ((stop - start + step - 1) / step)).map (fun i => start + i * step)

/-- Unpacking a Python tuple (modelled as a list) into exactly two targets:
`a, b = t` raises `ValueError` unless the tuple has exactly two items. -/
def unpack2 {α : Type} : List α → Except PyError (α × α)
  | [a, b] => .ok (a, b)
  | _ => .error .valueError

/-- Unpacking a Python tuple (modelled as a list) into exactly four targets. -/
def unpack4 {α : Type} : List α → Except PyError (α × α × α × α)
  | [a, b, c, d] => .ok (a, b, c, d)
  | _ => .error .valueError

/-- Python `dict[key]` on an insertion-ordered association list:
`KeyError` when absent. -/
def dictGetItem {β : Type} (l : List (String × β)) (k : String) : Except PyError β :=
  match l.lookup k with
  | some v => .ok v
  | none => .error .keyError

/-- `list(set(xs))` as used by the source.  CPython's set iteration order is
unspecified; we fix first-occurrence order.  No checked claim depends on the
order — only on the cardinality of the set and, when it is a singleton, on its
unique element. -/
def dedupFirst (l : List String) : List String :=
  l.foldl (fun acc x => if x ∈ acc then acc else acc ++ [x]) []

/-- Stable insertion of `x` after every element whose key is `≤ key x`. -/
def insertSortedBy {α : Type} (key : α → ℚ) (x : α) : List α → List α
  | [] => [x]
  | y :: ys => if key y ≤ key x then y :: insertSortedBy key x ys else x :: y :: ys

/-- Python `list.sort(key=...)`: a stable sort by a rational key. -/
def stableSortBy {α : Type} (key : α → ℚ) (l : List α) : List α :=
  l.foldl (fun acc x => insertSortedBy key x acc) []

/-- Python `max(pairs, key=lambda x: x[1])`: the first pair achieving the
maximal second component; `ValueError` on an empty sequence. -/
def maxBySnd (l : List (String × FloatVal)) : Except PyError (String × FloatVal) :=
  match l with
  | [] => .error .valueError
  | x :: xs => .ok (xs.foldl (fun best y => if FloatVal.lt best.2 y.2 then y else best) x)

/-- Python `max(d.values())` over an association list; `ValueError` on empty. -/
def maxVals (l : List (String × FloatVal)) : Except PyError FloatVal :=
  match l with
  | [] => .error .valueError
  | x :: xs => .ok (xs.foldl (fun best y => FloatVal.fmax best y.2) x.2)

/-- Extract the payload of a successful computation (used only to name the
concrete results of witness runs; the accompanying theorems prove the
computations do succeed). -/
def extractOk {α : Type} [Inhabited α] (e : Except PyError α) : α :=
  match e with
  | .ok a => a
  | .error _ => default

/-- Extract the accepted design of an evaluator run (used only to name the
concrete results of witness runs). -/
def extractAccepted {α : Type} [Inhabited α] (e : Except PyError (Option α)) : α :=
  match e with
  | .ok (some a) => a
  | _ => default

namespace MaterialCheck

/-- `material_check.Material`. -/
structure Material where
  name : String
  density : ℚ
  sigma_f : ℚ
  sf_min_ratio : ℚ
  safety_factor : ℚ
  color : String
deriving DecidableEq, Inhabited

/-- `material_check.MaterialDatabase.DEFAULT_MATERIALS` (insertion order). -/
def DEFAULT_MATERIALS : List (String × Material) :=
  [("steel", { name := "合金钢 (20CrMnTi)", density := 7.85e-6, sigma_f := 600,
               sf_min_ratio := 0.3, safety_factor := 2.0, color := "金属灰" }),
   ("peek", { name := "PEEK (聚醚醚酮)", density := 1.32e-6, sigma_f := 90,
              sf_min_ratio := 0.7, safety_factor := 2, color := "米黄色" }),
   ("pom", { name := "POM (聚甲醛)", density := 1.41e-6, sigma_f := 65,
             sf_min_ratio := 0.5, safety_factor := 2.5, color := "白色/黑色" }),
   ("nylon", { name := "尼龙66 (PA66)", density := 1.15e-6, sigma_f := 70,
               sf_min_ratio := 0.5, safety_factor := 2.5, color := "乳白色" }),
   ("peek_cf30", { name := "PEEK-CF30 (碳纤维增强)", density := 1.40e-6, sigma_f := 180,
                   sf_min_ratio := 0.55, safety_factor := 2.2, color := "黑色" })]

/-- `material_check.MaterialDatabase`: an insertion-ordered mapping from
material key to material record. -/
structure MaterialDatabase where
  materials : List (String × Material)
deriving DecidableEq

/-- `MaterialDatabase.__init__`: `self.materials = materials or
self.DEFAULT_MATERIALS.copy()`.  Python `or` tests truthiness, and both `None`
and the empty dict are falsy, so an explicitly empty mapping also selects the
built-in defaults. -/
def MaterialDatabase.init (materials : Option (List (String × Material))) :
    MaterialDatabase :=
  ⟨match materials with
   | some m => if m = [] then DEFAULT_MATERIALS else m
   | none => DEFAULT_MATERIALS⟩

/-- `MaterialDatabase.get`: `dict.get`, `None` when absent. -/
def MaterialDatabase.get (db : MaterialDatabase) (key : String) : Option Material :=
  db.materials.lookup key

/-- `MaterialDatabase.keys`. -/
def MaterialDatabase.keys (db : MaterialDatabase) : List String :=
  db.materials.map Prod.fst

/-- `MaterialDatabase.__getitem__`: `KeyError` when absent. -/
def MaterialDatabase.getItem (db : MaterialDatabase) (key : String) :
    Except PyError Material :=
  dictGetItem db.materials key

/-- `material_check.MaterialCheckResult` (the `None`-defaulted dict fields are
initialised to empty mappings by `__post_init__`; constructors below always
set every field explicitly). -/
structure MaterialCheckResult where
  material_key : String
  name : String
  max_stress : FloatVal
  allow_stress : ℚ
  strength_ok : Bool
  sf_ratio_ok : Bool
  suitable : Bool
  safety_margin : FloatVal
  density : ℚ
  stress_details : List (String × FloatVal)
  gear_materials : List (String × String)
  gear_material_names : List (String × String)
  tip_relief_amounts : List (String × ℚ)
  contact_ratios : List (String × ℚ)
  stress_ratios : List (String × FloatVal)
  max_stress_ratio_gear : String
deriving DecidableEq, Inhabited

/-- `StrengthChecker.calculate_bending_stress`.  Returns the 4-tuple
`(sigma_F, Y_F, K_v, K_beta)` as a list so that tuple-unpacking arity is
modelled (see `unpack2` / `unpack4`).  The `helix_angle` parameter is fixed at
its default `0.0` (the only value any modelled call site passes), under which
`zv = z` and `K_beta = 1.0`. -/
def calculate_bending_stress (m : ℚ) (z : ℤ) (width torque Y_S Y_epsilon tip_relief : ℚ) :
    List FloatVal :=
  if z < 12 ∨ width ≤ 0 ∨ m ≤ 0 then [.inf, .fin 0, .fin 1, .fin 1]
  else
    let Y_F : ℚ := 2.1 + 3.5 / (z : ℚ)
    let T : ℚ := torque * 1000
    let K_v : ℚ := max 0.85 (1 - 2 * tip_relief)
    let K_beta : ℚ := 1
    let sigma_F : ℚ := (2 * T * Y_F * Y_S * Y_epsilon * K_v * K_beta) / (width * m ^ 2 * (z : ℚ))
    [.fin sigma_F, .fin Y_F, .fin K_v, .fin K_beta]

/-- `StrengthChecker.calculate_contact_ratio` at `helix_angle = 0` (the only
value the modelled call sites pass): `epsilon_beta = 0` and
`epsilon_alpha = 1.88 - 3.2·(1/z1 + 1/z2)`.  The radii and base-pitch locals
the source also computes are dead at `helix_angle = 0` and are omitted. -/
def calculate_contact_ratio (m : ℚ) (z1 z2 : ℤ) : ℚ × ℚ × ℚ :=
  let _ := m
  let epsilon_alpha : ℚ := 1.88 - 3.2 * (1 / (z1 : ℚ) + 1 / (z2 : ℚ))
  let epsilon_beta : ℚ := 0
  (epsilon_alpha, epsilon_beta, epsilon_alpha + epsilon_beta)

/-- `StrengthChecker.calculate_tip_relief`. -/
def calculate_tip_relief (m tip_relief_coef : ℚ) : ℚ := m * tip_relief_coef

/-- `StrengthChecker.check_material`.  Note the source unpacks the 4-tuple
returned by `calculate_bending_stress` into two targets
(`sigma_F1, _ = self.calculate_bending_stress(...)`), which is a runtime
`ValueError` in Python; the rest of the body is transcribed faithfully but is
unreachable. -/
def check_material (sf_factor : ℚ) (material : Material) (m1 m2 : ℚ)
    (z1 z2 z3 z4 : ℤ) (width1 width2 torque1 torque2 : ℚ) :
    Except PyError MaterialCheckResult := do
  let (sigma_F1, _) ← unpack2 (calculate_bending_stress m1 z1 width1 torque1 1 0.7 0)
  let (sigma_F2, _) ← unpack2 (calculate_bending_stress m1 z2 width1
    (torque1 * (z2 : ℚ) / (z1 : ℚ)) 1 0.7 0)
  let (sigma_F3, _) ← unpack2 (calculate_bending_stress m2 z3 width2 torque2 1 0.7 0)
  let (sigma_F4, _) ← unpack2 (calculate_bending_stress m2 z4 width2
    (torque2 * (z4 : ℚ) / (z3 : ℚ)) 1 0.7 0)
  let stress_details := [("z1(一级主动)", sigma_F1), ("z2(一级从动)", sigma_F2),
                         ("z3(二级主动)", sigma_F3), ("z4(二级从动)", sigma_F4)]
  let max_sigma_F := FloatVal.fmax (FloatVal.fmax (FloatVal.fmax sigma_F1 sigma_F2) sigma_F3) sigma_F4
  let sigma_F_allow := material.sigma_f / material.safety_factor
  let sf1 := m1 * sf_factor
  let sf2 := m2 * sf_factor
  let sf_ratio_ok := decide (material.sf_min_ratio ≤ sf1 / m1) &&
                     decide (material.sf_min_ratio ≤ sf2 / m2)
  let strength_ok := FloatVal.le max_sigma_F (.fin sigma_F_allow)
  let is_suitable := strength_ok && sf_ratio_ok
  let safety_margin := if FloatVal.lt (.fin 0) max_sigma_F
    then FloatVal.fdiv (.fin sigma_F_allow) max_sigma_F else .inf
  pure { material_key := "", name := material.name, max_stress := max_sigma_F,
         allow_stress := sigma_F_allow, strength_ok := strength_ok,
         sf_ratio_ok := sf_ratio_ok, suitable := is_suitable,
         safety_margin := safety_margin, density := material.density,
         stress_details := stress_details, gear_materials := [],
         gear_material_names := [], tip_relief_amounts := [],
         contact_ratios := [], stress_ratios := [], max_stress_ratio_gear := "" }

/-- `StrengthChecker.select_best_material`: qualify every catalog material in
insertion order, then pick per `mode` (an explicit key, or in `'auto'` mode
the lowest-density suitable material, falling back to `'steel'`). -/
def select_best_material (sf_factor : ℚ) (db : MaterialDatabase) (m1 m2 : ℚ)
    (z1 z2 z3 z4 : ℤ) (width1 width2 torque1 torque2 : ℚ) (mode : String) :
    Except PyError (String × List (String × MaterialCheckResult)) := do
  let st ← db.keys.foldlM
    (fun (st : List (String × MaterialCheckResult) × List (String × MaterialCheckResult)) key => do
      let material ← db.getItem key
      let result ← check_material sf_factor material m1 m2 z1 z2 z3 z4 width1 width2 torque1 torque2
      let result := { result with material_key := key }
      pure (st.1 ++ [(key, result)],
            if result.suitable then st.2 ++ [(key, result)] else st.2))
    ([], [])
  let results := st.1
  let suitable_materials := st.2
  if mode ≠ "auto" then
    pure (mode, results)
  else
    match stableSortBy (fun x => x.2.density) suitable_materials with
    | s :: _ => pure (s.1, results)
    | [] => pure ("steel", results)

/-- `StrengthChecker._get_gear_desc`. -/
def get_gear_desc (gear_key : String) : String :=
  (([("z1", "一级主动"), ("z2", "一级从动"), ("z3", "二级主动"), ("z4", "二级从动")] :
    List (String × String)).lookup gear_key).getD gear_key

/-- The running state of the per-gear loop of
`StrengthChecker.check_mixed_materials`. -/
structure MixedLoopState where
  stress_details : List (String × FloatVal)
  gear_materials : List (String × String)
  gear_material_names : List (String × String)
  all_suitable : Bool
  max_stress_ratio : FloatVal
  max_stress_ratio_gear : String
  total_density_weighted : ℚ
  relief_amounts : List (String × ℚ)
  stress_ratios : List (String × FloatVal)
deriving DecidableEq, Inhabited

/-- One iteration of the per-gear loop of `check_mixed_materials`: resolve the
gear's material (config lookup with `'steel'` default, then catalog lookup
falling back to `db['steel']`), compute its bending stress (unpacking the
4-tuple into four targets), check its own strength and root-thickness gates,
and accumulate all the reporting fields. -/
def mixedStep (sf_factor : ℚ) (db : MaterialDatabase)
    (material_config : List (String × String)) (st : MixedLoopState)
    (g : String × ℚ × ℤ × ℚ × ℚ × ℚ) : Except PyError MixedLoopState := do
  let (gear_key, m, z, width, torque, tip_relief) := g
  let mat_key := (material_config.lookup gear_key).getD "steel"
  let material ← match db.get mat_key with
    | some mm => pure mm
    | none => db.getItem "steel"
  let (sigma_F, _, _Kv, _Kb) ← unpack4 (calculate_bending_stress m z width torque 1 0.7 tip_relief)
  let gear_desc := gear_key ++ "(" ++ get_gear_desc gear_key ++ ")"
  let relief := calculate_tip_relief m tip_relief
  let sigma_F_allow := material.sigma_f / material.safety_factor
  let strength_ok := FloatVal.le sigma_F (.fin sigma_F_allow)
  let sf := m * sf_factor
  let sf_ok := decide (material.sf_min_ratio ≤ sf / m)
  let gear_suitable := strength_ok && sf_ok
  let stress_ratio := if 0 < sigma_F_allow
    then FloatVal.fdiv sigma_F (.fin sigma_F_allow) else .inf
  pure { stress_details := st.stress_details ++ [(gear_desc, sigma_F)],
         gear_materials := st.gear_materials ++ [(gear_key, mat_key)],
         gear_material_names := st.gear_material_names ++ [(gear_key, material.name)],
         all_suitable := if gear_suitable then st.all_suitable else false,
         max_stress_ratio := if FloatVal.lt st.max_stress_ratio stress_ratio
           then stress_ratio else st.max_stress_ratio,
         max_stress_ratio_gear := if FloatVal.lt st.max_stress_ratio stress_ratio
           then gear_desc else st.max_stress_ratio_gear,
         total_density_weighted := st.total_density_weighted +
           material.density * ((z : ℚ) * width * m ^ 2),
         relief_amounts := st.relief_amounts ++ [(gear_key, relief)],
         stress_ratios := st.stress_ratios ++ [(gear_desc, stress_ratio)] }

/-- The reference allowable stress reported by `check_mixed_materials`
(source lines 541-552): the allowable stress of the material assigned to the
gear with the overall maximal stress when that gear is found in the
assignment, else (a defensively coded, unreachable branch) the mean allowable
stress over the per-gear assignment. -/
def refAllowStress (db : MaterialDatabase)
    (gear_materials : List (String × String)) (max_stress_gear_short : String) :
    Except PyError ℚ :=
  match gear_materials.lookup max_stress_gear_short with
  | some mk => do
      let ref_material ← db.getItem mk
      pure (ref_material.sigma_f / ref_material.safety_factor)
  | none => do
      let allowances ← gear_materials.mapM (fun gm => do
        let mat ← db.getItem gm.2
        pure (mat.sigma_f / mat.safety_factor))
      pure (allowances.foldl (fun a b => a + b) 0 / (gear_materials.length : ℚ))

/-- `StrengthChecker.check_mixed_materials` (helix angles fixed at their
default `0.0`, the only value the modelled call sites pass). -/
def check_mixed_materials (sf_factor : ℚ) (db : MaterialDatabase) (m1 m2 : ℚ)
    (z1 z2 z3 z4 : ℤ) (width1 width2 torque1 torque2 : ℚ)
    (material_config : List (String × String)) (tip_relief1 tip_relief2 : ℚ) :
    Except PyError MaterialCheckResult := do
  let T1 := torque1
  let T2 := torque1 * (z2 : ℚ) / (z1 : ℚ)
  let T3 := torque2
  let T4 := torque2 * (z4 : ℚ) / (z3 : ℚ)
  let gears : List (String × ℚ × ℤ × ℚ × ℚ × ℚ) :=
    [("z1", m1, z1, width1, T1, tip_relief1), ("z2", m1, z2, width1, T2, tip_relief1),
     ("z3", m2, z3, width2, T3, tip_relief2), ("z4", m2, z4, width2, T4, tip_relief2)]
  let cr1 := calculate_contact_ratio m1 z1 z2
  let cr2 := calculate_contact_ratio m2 z3 z4
  let st ← gears.foldlM (mixedStep sf_factor db material_config)
    { stress_details := [], gear_materials := [], gear_material_names := [],
      all_suitable := true, max_stress_ratio := .fin 0, max_stress_ratio_gear := "",
      total_density_weighted := 0, relief_amounts := [], stress_ratios := [] }
  let max_sigma_F ← maxVals st.stress_details
  let max_pair ← maxBySnd st.stress_details
  let max_stress_gear_short := max_pair.1.takeWhile (fun c => c ≠ '(')
  let ref_allow_stress ← refAllowStress db st.gear_materials max_stress_gear_short
  let safety_margin := if FloatVal.lt (.fin 0) st.max_stress_ratio
    then FloatVal.fdiv (.fin 1) st.max_stress_ratio else .inf
  let unique_materials := dedupFirst (st.gear_material_names.map Prod.snd)
  let combined_name := if unique_materials.length > 1
    then String.intercalate " + " unique_materials else unique_materials.headD ""
  let volume_total := gears.foldl
    (fun acc g => match g with
      | (_, m, z, width, _, _) => acc + (z : ℚ) * width * m ^ 2) 0
  pure { material_key := "mixed", name := combined_name, max_stress := max_sigma_F,
         allow_stress := ref_allow_stress, strength_ok := st.all_suitable,
         sf_ratio_ok := st.all_suitable, suitable := st.all_suitable,
         safety_margin := safety_margin,
         density := st.total_density_weighted / volume_total,
         stress_details := st.stress_details, gear_materials := st.gear_materials,
         gear_material_names := st.gear_material_names,
         tip_relief_amounts := st.relief_amounts,
         contact_ratios := [("stage1", cr1.2.2), ("stage2", cr2.2.2)],
         stress_ratios := st.stress_ratios,
         max_stress_ratio_gear := st.max_stress_ratio_gear }

end MaterialCheck

namespace GearOptim

/-- `gear_optimizer.GearConfig`.  The `pressure_angle` field only ever feeds
the construction of `StrengthChecker(config.pressure_angle)`, whose sole
derived state is the transcendental tooth-root factor; we therefore carry
that factor directly as `sf_factor` (see the header comment). -/
structure GearConfig where
  motor_torque : ℚ
  output_torque : ℚ
  max_motor_speed : ℚ
  output_speed : ℚ
  motor_diameter : ℚ
  min_clearance : ℚ
  min_teeth : ℤ
  d1_range : ℕ × ℕ
  d2_range : ℕ × ℕ
  d3_range : ℕ × ℕ
  d4_range : ℕ × ℕ
  step : ℕ
  m1_options : List ℚ
  m2_options : List ℚ
  width_factors1 : List ℚ
  width_factors2 : List ℚ
  material_z1 : String
  material_z2 : String
  material_z3 : String
  material_z4 : String
  optimize_mode : String
  motor_weight : ℚ
  sf_factor : ℚ
deriving DecidableEq

/-- `gear_optimizer.GearResult`. -/
structure GearResult where
  m1 : ℚ
  m2 : ℚ
  z1 : ℤ
  z2 : ℤ
  z3 : ℤ
  z4 : ℤ
  d1 : ℚ
  d2 : ℚ
  d3 : ℚ
  d4 : ℚ
  ratio : ℚ
  material : String
  material_name : String
  max_stress : FloatVal
  allow_stress : ℚ
  weight_g : ℚ
  total_size : ℚ
  output_torque : ℚ
  width_factor1 : ℚ
  width_factor2 : ℚ
  stress_details : List (String × FloatVal)
  max_stress_gear : String
  gear_materials : List (String × String)
  gear_material_names : List (String × String)
deriving DecidableEq, Inhabited

/-- Step 9 of `GearOptimizer.evaluate` (the material qualification): with the
optimizer's default-constructed material database, run the mixed-material
check when the per-gear assignment names more than one distinct material,
else run automatic single-material selection and index the returned results
with the selected key. -/
def materialStep (sf_factor : ℚ) (mz1 mz2 mz3 mz4 : String) (m1 m2 : ℚ)
    (z1 z2 z3 z4 : ℤ) (width1 width2 torque1 torque2 : ℚ) :
    Except PyError MaterialCheck.MaterialCheckResult :=
  let material_config := [("z1", mz1), ("z2", mz2), ("z3", mz3), ("z4", mz4)]
  let db := MaterialCheck.MaterialDatabase.init none
  let unique_materials := dedupFirst [mz1, mz2, mz3, mz4]
  if unique_materials.length > 1 then
    MaterialCheck.check_mixed_materials sf_factor db m1 m2 z1 z2 z3 z4
      width1 width2 torque1 torque2 material_config 0 0
  else do
    let sel ← MaterialCheck.select_best_material sf_factor db m1 m2 z1 z2 z3 z4
      width1 width2 torque1 torque2 "auto"
    dictGetItem sel.2 sel.1

/-- Step 10 of `GearOptimizer.evaluate` (the mass): per-gear densities when a
mixed-material assignment was checked (`result.gear_materials` truthy), else
the selected single material's density over the summed cylinder volumes. -/
def computeWeight (db : MaterialCheck.MaterialDatabase)
    (result : MaterialCheck.MaterialCheckResult)
    (d1 d2 d3 d4 width1 width2 : ℚ) : Except PyError ℚ :=
  if result.gear_materials ≠ [] then
    ([(d1, width1, "z1"), (d2, width1, "z2"), (d3, width2, "z3"), (d4, width2, "z4")] :
      List (ℚ × ℚ × String)).foldlM
      (fun (acc : ℚ) gw => do
        let (d, width, gear_key) := gw
        let mat_key := (result.gear_materials.lookup gear_key).getD "steel"
        let material ← match db.get mat_key with
          | some mm => pure mm
          | none => db.getItem "steel"
        let vol := mathPi * (d / 2) ^ 2 * width
        pure (acc + 0.5 * vol * material.density * 1000)) 0
  else
    let vol := mathPi * (d1 / 2) ^ 2 * width1 + mathPi * (d2 / 2) ^ 2 * width1 +
               mathPi * (d3 / 2) ^ 2 * width2 + mathPi * (d4 / 2) ^ 2 * width2
    pure (0.5 * vol * result.density * 1000)

/-- Steps 3–11 of `GearOptimizer.evaluate` (everything after the tooth-count
gate).  Split out of `evaluate` because, unlike the gate, it does not read
`min_teeth`; its parameters are exactly the configuration fields it uses.
The distinct-material set is a pure expression and is recomputed where the
source reads its single local. -/
def evaluateBody (output_speed max_motor_speed motor_torque output_torque
    motor_diameter min_clearance sf_factor : ℚ) (mz1 mz2 mz3 mz4 : String)
    (m1 m2 : ℚ) (z1 z2 z3 z4 : ℤ) (wf1 wf2 : ℚ) :
    Except PyError (Option GearResult) :=
  let d1 := (z1 : ℚ) * m1
  let d2 := (z2 : ℚ) * m1
  let d3 := (z3 : ℚ) * m2
  let d4 := (z4 : ℚ) * m2
  let i1 := (z2 : ℚ) / (z1 : ℚ)
  let i2 := (z4 : ℚ) / (z3 : ℚ)
  let ratio := i1 * i2
  if output_speed * ratio > max_motor_speed then .ok none
  else
    let actual_torque := motor_torque * ratio * 0.9025
    if actual_torque < output_torque then .ok none
    else if max d2 d4 > motor_diameter then .ok none
    else if d1 - d3 < min_clearance then .ok none
    else do
      let width1 := wf1 * m1
      let width2 := wf2 * m2
      let torque1 := motor_torque
      let torque2 := torque1 * i1 * 0.95
      let result ← materialStep sf_factor mz1 mz2 mz3 mz4 m1 m2 z1 z2 z3 z4
        width1 width2 torque1 torque2
      if !result.suitable then pure none
      else do
        let max_pair ← maxBySnd result.stress_details
        let weight_g ← computeWeight (MaterialCheck.MaterialDatabase.init none)
          result d1 d2 d3 d4 width1 width2
        let total_size := motor_diameter / 2 + d1 / 2 + d2 / 2 + d3 / 2 + d4 / 2
        pure (some
          { m1 := m1, m2 := m2, z1 := z1, z2 := z2, z3 := z3, z4 := z4,
            d1 := d1, d2 := d2, d3 := d3, d4 := d4, ratio := ratio,
            material := if (dedupFirst [mz1, mz2, mz3, mz4]).length > 1 then "mixed"
              else (dedupFirst [mz1, mz2, mz3, mz4]).headD "",
            material_name := result.name, max_stress := result.max_stress,
            allow_stress := result.allow_stress, weight_g := weight_g,
            total_size := total_size,
            output_torque := actual_torque, width_factor1 := wf1, width_factor2 := wf2,
            stress_details := result.stress_details, max_stress_gear := max_pair.1,
            gear_materials := result.gear_materials,
            gear_material_names := result.gear_material_names })

/-- `GearOptimizer.evaluate`: round nominal diameters to tooth counts, apply
the minimum-tooth-count gate, then run the remaining pipeline
(`evaluateBody`).  `.ok none` is a per-candidate rejection; `.error` models an
uncaught Python exception. -/
def evaluate (cfg : GearConfig) (m1 m2 : ℚ) (d1_in d2_in d3_in d4_in : ℕ)
    (wf1 wf2 : ℚ) : Except PyError (Option GearResult) :=
  let z1 := pyRound ((d1_in : ℚ) / m1)
  let z2 := pyRound ((d2_in : ℚ) / m1)
  let z3 := pyRound ((d3_in : ℚ) / m2)
  let z4 := pyRound ((d4_in : ℚ) / m2)
  if min (min (min z1 z2) z3) z4 < cfg.min_teeth then .ok none
  else
    evaluateBody cfg.output_speed cfg.max_motor_speed cfg.motor_torque
      cfg.output_torque cfg.motor_diameter cfg.min_clearance cfg.sf_factor
      cfg.material_z1 cfg.material_z2 cfg.material_z3 cfg.material_z4
      m1 m2 z1 z2 z3 z4 wf1 wf2

/-- One candidate point of the optimizer's sweep. -/
abbrev Cand : Type := ℚ × ℚ × ℕ × ℕ × ℕ × ℕ × ℚ × ℚ

/-- The full Cartesian parameter grid of `GearOptimizer.optimize`, in its
exact (nested-loop) enumeration order. -/
def candidates (cfg : GearConfig) : List Cand :=
  let d1_list := rangeStep cfg.d1_range.1 (cfg.d1_range.2 + 1) cfg.step
  let d2_list := rangeStep cfg.d2_range.1 (cfg.d2_range.2 + 1) cfg.step
  let d3_list := rangeStep cfg.d3_range.1 (cfg.d3_range.2 + 1) cfg.step
  let d4_list := rangeStep cfg.d4_range.1 (cfg.d4_range.2 + 1) cfg.step
  cfg.m1_options.flatMap (fun m1 =>
    cfg.m2_options.flatMap (fun m2 =>
      d1_list.flatMap (fun d1 =>
        d2_list.flatMap (fun d2 =>
          d3_list.flatMap (fun d3 =>
            d4_list.flatMap (fun d4 =>
              cfg.width_factors1.flatMap (fun wf1 =>
                cfg.width_factors2.map (fun wf2 =>
                  ((m1, m2, d1, d2, d3, d4, wf1, wf2) : Cand)))))))))

/-- `evaluate` applied to one candidate tuple. -/
def evalTuple (cfg : GearConfig) (c : Cand) : Except PyError (Option GearResult) :=
  match c with
  | (m1, m2, d1, d2, d3, d4, wf1, wf2) => evaluate cfg m1 m2 d1 d2 d3 d4 wf1 wf2

/-- One iteration of the optimizer's search loop: evaluate the candidate,
count it if feasible, and replace the running best on strict metric
improvement (`metric < best_metric`, first-found wins ties). -/
def optStep (cfg : GearConfig) (st : Option GearResult × FloatVal × ℕ) (c : Cand) :
    Except PyError (Option GearResult × FloatVal × ℕ) := do
  let result ← evalTuple cfg c
  match result with
  | some res =>
    let valid := st.2.2 + 1
    let metric : ℚ := if cfg.optimize_mode = "size" then res.total_size else res.weight_g
    if FloatVal.lt (.fin metric) st.2.1 then pure (some res, .fin metric, valid)
    else pure (st.1, st.2.1, valid)
  | none => pure st

/-- The `total_count` reported by `GearOptimizer.optimize`: the product of the
option-list and grid lengths. -/
def totalCount (cfg : GearConfig) : ℕ :=
  cfg.m1_options.length * cfg.m2_options.length *
  (rangeStep cfg.d1_range.1 (cfg.d1_range.2 + 1) cfg.step).length *
  (rangeStep cfg.d2_range.1 (cfg.d2_range.2 + 1) cfg.step).length *
  (rangeStep cfg.d3_range.1 (cfg.d3_range.2 + 1) cfg.step).length *
  (rangeStep cfg.d4_range.1 (cfg.d4_range.2 + 1) cfg.step).length *
  cfg.width_factors1.length * cfg.width_factors2.length

/-- `GearOptimizer.optimize`: sweep the whole grid (starting from no best
candidate, an infinite best metric and a zero feasible count) and return
`(best_result, valid_count, total_count)`.  Progress printing does not affect
the result and is not modelled. -/
def optimize (cfg : GearConfig) : Except PyError (Option GearResult × ℕ × ℕ) := do
  let st ← (candidates cfg).foldlM (optStep cfg) (none, .inf, 0)
  pure (st.1, st.2.2, totalCount cfg)

/-- An evaluator outcome is an acceptance when it is neither a rejection
(`None`) nor an exception. -/
def isAccepted {α : Type} (e : Except PyError (Option α)) : Bool :=
  match e with
  | .ok (some _) => true
  | _ => false

end GearOptim

namespace KimiSingle

/-- `kimi_proposal_single.MOTOR_TORQUE_LOWER`. -/
def MOTOR_TORQUE_LOWER : ℚ := 0.8

/-- `kimi_proposal_single.OUTPUT_TORQUE`. -/
def OUTPUT_TORQUE : ℚ := 4

/-- `kimi_proposal_single.MAX_MOTOR_SPEED`. -/
def MAX_MOTOR_SPEED : ℚ := 4000

/-- `kimi_proposal_single.OUTPUT_SPEED`. -/
def OUTPUT_SPEED : ℚ := 250

/-- `kimi_proposal_single.MOTOR_D`. -/
def MOTOR_D : ℚ := 75

/-- `kimi_proposal_single.MIN_CLEARANCE`. -/
def MIN_CLEARANCE : ℚ := 1

/-- `kimi_proposal_single.MIN_TEETH`. -/
def MIN_TEETH : ℤ := 17

/-- `kimi_proposal_single.WIDTH_FACTOR1`. -/
def WIDTH_FACTOR1 : ℚ := 15

/-- `kimi_proposal_single.WIDTH_FACTOR2`. -/
def WIDTH_FACTOR2 : ℚ := 10

/-- One record of `kimi_proposal_single.MATERIAL_DB`. -/
structure KSMat where
  name : String
  density : ℚ
  sigma_f : ℚ
  sf_min_ratio : ℚ
  safety_factor : ℚ
deriving DecidableEq, Inhabited

/-- `kimi_proposal_single.MATERIAL_DB` (insertion order). -/
def MATERIAL_DB : List (String × KSMat) :=
  [("steel", { name := "合金钢 (20CrMnTi)", density := 7.85e-6, sigma_f := 600,
               sf_min_ratio := 0.3, safety_factor := 2.0 }),
   ("peek", { name := "PEEK", density := 1.32e-6, sigma_f := 90,
              sf_min_ratio := 0.8, safety_factor := 2.5 }),
   ("pom", { name := "POM", density := 1.41e-6, sigma_f := 65,
             sf_min_ratio := 1.0, safety_factor := 3.0 }),
   ("nylon", { name := "尼龙66", density := 1.15e-6, sigma_f := 70,
               sf_min_ratio := 0.9, safety_factor := 2.8 })]

/-- `kimi_proposal_single.calculate_bending_stress`: returns the pair
`(sigma_F, Y_F)`, with the `(+inf, 0)` sentinel on a precondition failure. -/
def calculate_bending_stress (m : ℚ) (z : ℤ) (width torque : ℚ) : FloatVal × ℚ :=
  if z < 12 ∨ width ≤ 0 ∨ m ≤ 0 then (.inf, 0)
  else
    let Y_F : ℚ := 2.1 + 3.5 / (z : ℚ)
    let T : ℚ := torque * 1000
    (.fin ((2 * T * Y_F * 0.7) / (width * m ^ 2 * (z : ℚ))), Y_F)

/-- One entry of the `check_results` dict built by
`kimi_proposal_single.select_material`. -/
structure KSCheck where
  suitable : Bool
  max_stress : FloatVal
  allow_stress : ℚ
deriving DecidableEq, Inhabited

/-- `kimi_proposal_single.select_material`.  The source recomputes the four
stresses inside the per-material loop (they do not depend on the material) and
evaluates `sf_factor` from the hardcoded 20° pressure angle; we abstract that
transcendental constant as the `sf_factor` parameter (see the header comment).
The root-thickness condition is the source's verbatim duplicated conjunct
`(sf_factor >= r) and (sf_factor >= r)`. -/
def select_material (sf_factor : ℚ) (m1 m2 : ℚ) (z1 z2 z3 z4 : ℤ)
    (width1 width2 T1 T2 : ℚ) : String × List (String × KSCheck) :=
  let st := MATERIAL_DB.foldl
    (fun (st : List (String × KSCheck) × List (String × ℚ)) kp =>
      let (key, props) := kp
      let (sigma_F1, _) := calculate_bending_stress m1 z1 width1 T1
      let (sigma_F2, _) := calculate_bending_stress m1 z2 width1 (T1 * (z2 : ℚ) / (z1 : ℚ))
      let (sigma_F3, _) := calculate_bending_stress m2 z3 width2 T2
      let (sigma_F4, _) := calculate_bending_stress m2 z4 width2 (T2 * (z4 : ℚ) / (z3 : ℚ))
      let max_sigma_F := FloatVal.fmax (FloatVal.fmax (FloatVal.fmax sigma_F1 sigma_F2) sigma_F3) sigma_F4
      let sigma_F_allow := props.sigma_f / props.safety_factor
      let sf_ratio_ok := decide (props.sf_min_ratio ≤ sf_factor) &&
                         decide (props.sf_min_ratio ≤ sf_factor)
      let strength_ok := FloatVal.le max_sigma_F (.fin sigma_F_allow)
      let is_suitable := strength_ok && sf_ratio_ok
      (st.1 ++ [(key, { suitable := is_suitable, max_stress := max_sigma_F,
                        allow_stress := sigma_F_allow })],
       if is_suitable then st.2 ++ [(key, props.density)] else st.2))
    ([], [])
  match stableSortBy Prod.snd st.2 with
  | s :: _ => (s.1, st.1)
  | [] => ("steel", st.1)

/-- The dict returned by `kimi_proposal_single.evaluate_design` on
acceptance. -/
structure KSResult where
  m1 : ℚ
  m2 : ℚ
  z1 : ℤ
  z2 : ℤ
  z3 : ℤ
  z4 : ℤ
  D1 : ℚ
  D2 : ℚ
  D3 : ℚ
  D4 : ℚ
  ratio : ℚ
  material : String
  weight_g : ℚ
  total_size : ℚ
  output_torque : ℚ
deriving DecidableEq, Inhabited

/-- `kimi_proposal_single.evaluate_design`.  `.ok none` is a per-candidate
rejection (`return None`); `.error` models an uncaught Python exception
(`KeyError` on a missing catalog key — unreachable with the module's constant
database, which always holds `'steel'`). -/
def evaluate_design (sf_factor : ℚ) (m1 m2 D1 D2 D3 D4 : ℚ) :
    Except PyError (Option KSResult) := do
  let z1 := pyRound (D1 / m1)
  let z2 := pyRound (D2 / m1)
  let z3 := pyRound (D3 / m2)
  let z4 := pyRound (D4 / m2)
  if z1 < MIN_TEETH ∨ z2 < MIN_TEETH ∨ z3 < MIN_TEETH ∨ z4 < MIN_TEETH then pure none
  else
    let D1r := (z1 : ℚ) * m1
    let D2r := (z2 : ℚ) * m1
    let D3r := (z3 : ℚ) * m2
    let D4r := (z4 : ℚ) * m2
    let i1 := (z2 : ℚ) / (z1 : ℚ)
    let i2 := (z4 : ℚ) / (z3 : ℚ)
    let ratio := i1 * i2
    if OUTPUT_SPEED * ratio > MAX_MOTOR_SPEED then pure none
    else if MOTOR_TORQUE_LOWER * ratio * 0.9025 < OUTPUT_TORQUE then pure none
    else if max D2r D4r > MOTOR_D then pure none
    else if D1r - D3r < MIN_CLEARANCE then pure none
    else do
      let width1 := WIDTH_FACTOR1 * m1
      let width2 := WIDTH_FACTOR2 * m2
      let T1 := MOTOR_TORQUE_LOWER
      let T2 := T1 * i1 * 0.95
      let sel := select_material sf_factor m1 m2 z1 z2 z3 z4 width1 width2 T1 T2
      let first_check ← dictGetItem sel.2 sel.1
      let selected? := if first_check.suitable then some sel.1
        else (sel.2.find? (fun kr => kr.2.suitable)).map (fun kr => kr.1)
      match selected? with
      | none => pure none
      | some selected_mat => do
        let props ← dictGetItem MATERIAL_DB selected_mat
        let density := props.density
        let vol1 := mathPi * (D1r / 2) ^ 2 * width1
        let vol2 := mathPi * (D2r / 2) ^ 2 * width1
        let vol3 := mathPi * (D3r / 2) ^ 2 * width2
        let vol4 := mathPi * (D4r / 2) ^ 2 * width2
        let weight_g := 0.5 * (vol1 + vol2 + vol3 + vol4) * density * 1000
        let total_size := MOTOR_D / 2 + D1r / 2 + D2r / 2 + D3r / 2 + D4r / 2
        pure (some
          { m1 := m1, m2 := m2, z1 := z1, z2 := z2, z3 := z3, z4 := z4,
            D1 := D1r, D2 := D2r, D3 := D3r, D4 := D4r, ratio := ratio,
            material := selected_mat, weight_g := weight_g,
            total_size := total_size,
            output_torque := MOTOR_TORQUE_LOWER * ratio * 0.9025 })

end KimiSingle

namespace KimiSpeed

/-- One record of `kimi_proposal_speed.MATERIAL_DB`. -/
structure SpeedMat where
  name : String
  density : ℚ
  sigma_b : ℚ
  sigma_f : ℚ
  sf_min_ratio : ℚ
  safety_factor : ℚ
  color : String
deriving DecidableEq, Inhabited

/-- `kimi_proposal_speed.MATERIAL_DB` (insertion order). -/
def MATERIAL_DB : List (String × SpeedMat) :=
  [("steel", { name := "合金钢 (20CrMnTi)", density := 7.85e-6, sigma_b := 800,
               sigma_f := 600, sf_min_ratio := 0.3, safety_factor := 2.0,
               color := "金属灰" }),
   ("peek", { name := "PEEK (聚醚醚酮)", density := 1.32e-6, sigma_b := 100,
              sigma_f := 90, sf_min_ratio := 0.8, safety_factor := 2.5,
              color := "米黄色" }),
   ("pom", { name := "POM (聚甲醛)", density := 1.41e-6, sigma_b := 70,
             sigma_f := 65, sf_min_ratio := 1.0, safety_factor := 3.0,
             color := "白色/黑色" }),
   ("nylon", { name := "尼龙66 (PA66)", density := 1.15e-6, sigma_b := 80,
               sigma_f := 70, sf_min_ratio := 0.9, safety_factor := 2.8,
               color := "乳白色" })]

/-- `kimi_proposal_speed.calculate_bending_stress`: returns the pair
`(sigma_F, Y_F)`, with the `(+inf, 0)` sentinel on a precondition failure;
`Y_S = 1.0` and `Y_epsilon = 0.7` are inlined simplifying constants. -/
def calculate_bending_stress (m : ℚ) (z : ℤ) (width torque : ℚ) : FloatVal × ℚ :=
  if z < 12 ∨ width ≤ 0 ∨ m ≤ 0 then (.inf, 0)
  else
    let Y_F : ℚ := 2.1 + 3.5 / (z : ℚ)
    let T : ℚ := torque * 1000
    (.fin ((2 * T * Y_F * 1.0 * 0.7) / (width * m ^ 2 * (z : ℚ))), Y_F)

/-- One entry of the `check_results` dict built by
`kimi_proposal_speed.select_material_by_strength`. -/
structure SpeedCheck where
  name : String
  max_stress : FloatVal
  allow_stress : ℚ
  strength_ok : Bool
  sf_ratio_ok : Bool
  suitable : Bool
  safety_margin : FloatVal
  density : ℚ
  color : String
deriving DecidableEq, Inhabited

/-- `kimi_proposal_speed.select_material_by_strength`.  The source recomputes
the four stresses inside the per-material loop (they do not depend on the
material) and evaluates `sf_factor` from the hardcoded 20° pressure angle; we
abstract that transcendental constant as the `sf_factor` parameter (see the
header comment). -/
def select_material_by_strength (sf_factor : ℚ) (m1 m2 : ℚ) (z1 z2 z3 z4 : ℤ)
    (width1 width2 torque1 torque2 : ℚ) (material_db : List (String × SpeedMat)) :
    String × List (String × SpeedCheck) :=
  let st := material_db.foldl
    (fun (st : List (String × SpeedCheck) × List (String × SpeedCheck)) kp =>
      let (key, props) := kp
      let (sigma_F1, _) := calculate_bending_stress m1 z1 width1 torque1
      let (sigma_F2, _) := calculate_bending_stress m1 z2 width1 (torque1 * (z2 : ℚ) / (z1 : ℚ))
      let (sigma_F3, _) := calculate_bending_stress m2 z3 width2 torque2
      let (sigma_F4, _) := calculate_bending_stress m2 z4 width2 (torque2 * (z4 : ℚ) / (z3 : ℚ))
      let max_sigma_F := FloatVal.fmax (FloatVal.fmax (FloatVal.fmax sigma_F1 sigma_F2) sigma_F3) sigma_F4
      let sigma_F_allow := props.sigma_f / props.safety_factor
      let sf1 := m1 * sf_factor
      let sf2 := m2 * sf_factor
      let sf_ratio_ok := decide (props.sf_min_ratio ≤ sf1 / m1) &&
                         decide (props.sf_min_ratio ≤ sf2 / m2)
      let strength_ok := FloatVal.le max_sigma_F (.fin sigma_F_allow)
      let is_suitable := strength_ok && sf_ratio_ok
      let entry : SpeedCheck :=
        { name := props.name, max_stress := max_sigma_F, allow_stress := sigma_F_allow,
          strength_ok := strength_ok, sf_ratio_ok := sf_ratio_ok,
          suitable := is_suitable,
          safety_margin := if FloatVal.lt (.fin 0) max_sigma_F
            then FloatVal.fdiv (.fin sigma_F_allow) max_sigma_F else .inf,
          density := props.density, color := props.color }
      (st.1 ++ [(key, entry)],
       if is_suitable then st.2 ++ [(key, entry)] else st.2))
    ([], [])
  match stableSortBy (fun x => x.2.density) st.2 with
  | s :: _ => (s.1, st.1)
  | [] => ("steel", st.1)

/-- The parameter tuple handed to
`kimi_proposal_speed.evaluate_single_design`. -/
structure SpeedParams where
  m1 : ℚ
  m2 : ℚ
  width_factor1 : ℚ
  width_factor2 : ℚ
  D1 : ℚ
  D2 : ℚ
  D3 : ℚ
  D4 : ℚ
  material_mode : String
  db : List (String × SpeedMat)
  opt_mode : String
  output_speed : ℚ
  max_motor_speed : ℚ
  motor_torque : ℚ
  output_torque : ℚ
  motor_D : ℚ
  motor_weight : ℚ
deriving DecidableEq, Inhabited

/-- The `selected_material_result` sub-dict of the result of
`evaluate_single_design`. -/
structure SMRes where
  name : String
  max_stress : FloatVal
  allow_stress : ℚ
  suitable : Bool
  safety_margin : FloatVal
  density : ℚ
deriving DecidableEq, Inhabited

/-- The dict returned by `kimi_proposal_speed.evaluate_single_design` on
acceptance. -/
structure SpeedResult where
  m1 : ℚ
  m2 : ℚ
  z1 : ℤ
  z2 : ℤ
  z3 : ℤ
  z4 : ℤ
  D1 : ℚ
  D2 : ℚ
  D3 : ℚ
  D4 : ℚ
  width1 : ℚ
  width2 : ℚ
  wheelbase1 : ℚ
  wheelbase2 : ℚ
  i1 : ℚ
  i2 : ℚ
  Total_Ratio : ℚ
  output_speed : ℚ
  desired_motor_speed : ℚ
  output_torque : ℚ
  gear_weight_g : ℚ
  total_weight_g : ℚ
  total_size : ℚ
  material_key : String
  material_name : String
  material_density : ℚ
  max_bending_stress : FloatVal
  allow_bending_stress : ℚ
  strength_check_pass : Bool
  metric : ℚ
  selected_material_result : SMRes
deriving DecidableEq, Inhabited

/-- Step 8's density resolution of `evaluate_single_design`: the steel
density in automatic mode (the comparison-metric mass is always priced at
steel), else the explicitly selected material's density; `KeyError` when the
indexed key is absent. -/
def tempDensity (p : SpeedParams) : Except PyError ℚ :=
  if p.material_mode = "auto" then do
    let props ← dictGetItem p.db "steel"
    pure props.density
  else do
    let props ← dictGetItem p.db p.material_mode
    pure props.density

/-- Step 10's selection call of `evaluate_single_design`: automatic selection
over the whole catalog, or an explicit key checked against its own singleton
catalog (`KeyError` when the key is absent). -/
def selectStep (sf_factor : ℚ) (p : SpeedParams) (z1 z2 z3 z4 : ℤ)
    (width1 width2 T1_motor T2_intermediate : ℚ) :
    Except PyError (String × List (String × SpeedCheck)) :=
  if p.material_mode = "auto" then
    pure (select_material_by_strength sf_factor p.m1 p.m2 z1 z2 z3 z4
      width1 width2 T1_motor T2_intermediate p.db)
  else do
    let mm ← dictGetItem p.db p.material_mode
    let pair := select_material_by_strength sf_factor p.m1 p.m2 z1 z2 z3 z4
      width1 width2 T1_motor T2_intermediate [(p.material_mode, mm)]
    pure (p.material_mode, pair.2)

/-- The automatic-mode rescue scan of `evaluate_single_design` (source lines
445-451): when the selected material is unsuitable in automatic mode, take
the first suitable entry of the check results in insertion order (key,
result, pass-flag); otherwise keep the original selection. -/
def fallbackSelect (p : SpeedParams) (selected_mat0 : String)
    (mat_result0 : SpeedCheck)
    (mat_check_results : List (String × SpeedCheck)) :
    String × SpeedCheck × Bool :=
  if !mat_result0.suitable ∧ p.material_mode = "auto" then
    match mat_check_results.find? (fun kr => kr.2.suitable) with
    | some kr => (kr.1, kr.2, true)
    | none => (selected_mat0, mat_result0, mat_result0.suitable)
  else (selected_mat0, mat_result0, mat_result0.suitable)

/-- `kimi_proposal_speed.evaluate_single_design`.  `.ok none` is a
per-candidate rejection (`return None`); `.error` models an uncaught Python
exception (`KeyError` on a catalog missing the indexed key). -/
def evaluateSingleDesign (sf_factor : ℚ) (p : SpeedParams) :
    Except PyError (Option SpeedResult) := do
  let z1 := pyRound (p.D1 / p.m1)
  let z2 := pyRound (p.D2 / p.m1)
  let z3 := pyRound (p.D3 / p.m2)
  let z4 := pyRound (p.D4 / p.m2)
  if z1 < 17 ∨ z2 < 17 ∨ z3 < 17 ∨ z4 < 17 then pure none
  else
    let D1_real := (z1 : ℚ) * p.m1
    let D2_real := (z2 : ℚ) * p.m1
    let D3_real := (z3 : ℚ) * p.m2
    let D4_real := (z4 : ℚ) * p.m2
    let i1 := (z2 : ℚ) / (z1 : ℚ)
    let i2 := (z4 : ℚ) / (z3 : ℚ)
    let Total_Ratio := i1 * i2
    let wheelbase1 := (D1_real + D2_real) / 2
    let wheelbase2 := (D3_real + D4_real) / 2
    if wheelbase1 ≤ 0 ∨ wheelbase2 ≤ 0 then pure none
    else
      let width1 := p.width_factor1 * p.m1
      let width2 := p.width_factor2 * p.m2
      let actual_output_speed := p.output_speed
      let desired_motor_speed := actual_output_speed * Total_Ratio
      if desired_motor_speed > p.max_motor_speed then pure none
      else
        let motor_torque := p.motor_torque
        let actual_output_torque := motor_torque * Total_Ratio * 0.95 * 0.95
        if actual_output_torque < p.output_torque then pure none
        else if max D2_real D4_real > p.motor_D then pure none
        else if D1_real - D3_real < 1 then pure none
        else do
          let temp_density ← tempDensity p
          let vol1 := mathPi * (D1_real / 2) ^ 2 * width1
          let vol2 := mathPi * (D2_real / 2) ^ 2 * width1
          let vol3 := mathPi * (D3_real / 2) ^ 2 * width2
          let vol4 := mathPi * (D4_real / 2) ^ 2 * width2
          let Total_Weight_kg := 0.5 * (vol1 + vol2 + vol3 + vol4) * temp_density
          let total_size := p.motor_D / 2 + D1_real / 2 + D2_real / 2 + D3_real / 2 + D4_real
          let T1_motor := motor_torque
          let T2_intermediate := T1_motor * i1 * 0.95
          let selRes ← selectStep sf_factor p z1 z2 z3 z4 width1 width2
            T1_motor T2_intermediate
          let selected_mat0 := selRes.1
          let mat_check_results := selRes.2
          match mat_check_results.lookup selected_mat0 with
          | none => pure none
          | some mat_result0 =>
            let fallback := fallbackSelect p selected_mat0 mat_result0 mat_check_results
            let selected_mat := fallback.1
            let mat_result := fallback.2.1
            let strength_pass := fallback.2.2
            if !strength_pass then pure none
            else do
              let current_metric := if p.opt_mode = "weight" then Total_Weight_kg else total_size
              let mat_props ← dictGetItem p.db selected_mat
              let actual_density := mat_props.density
              let kg_actual := 0.5 * (vol1 + vol2 + vol3 + vol4) * actual_density
              let g_actual := kg_actual * 1000
              let total_system := g_actual + p.motor_weight
              pure (some
                { m1 := p.m1, m2 := p.m2, z1 := z1, z2 := z2, z3 := z3, z4 := z4,
                  D1 := D1_real, D2 := D2_real, D3 := D3_real, D4 := D4_real,
                  width1 := width1, width2 := width2,
                  wheelbase1 := wheelbase1, wheelbase2 := wheelbase2,
                  i1 := i1, i2 := i2, Total_Ratio := Total_Ratio,
                  output_speed := actual_output_speed,
                  desired_motor_speed := desired_motor_speed,
                  output_torque := actual_output_torque,
                  gear_weight_g := g_actual, total_weight_g := total_system,
                  total_size := total_size, material_key := selected_mat,
                  material_name := mat_props.name,
                  material_density := mat_props.density,
                  max_bending_stress := mat_result.max_stress,
                  allow_bending_stress := mat_result.allow_stress,
                  strength_check_pass := mat_result.suitable,
                  metric := current_metric,
                  selected_material_result :=
                    { name := mat_props.name, max_stress := mat_result.max_stress,
                      allow_stress := mat_result.allow_stress,
                      suitable := mat_result.suitable,
                      safety_margin := mat_result.safety_margin,
                      density := mat_props.density } })

/-- The summed cylinder volumes of an accepted design's four gears,
reconstructed from its recorded real diameters and face widths (matches the
`vol1 + vol2 + vol3 + vol4` of `evaluate_single_design`). -/
def volSum (r : SpeedResult) : ℚ :=
  mathPi * (r.D1 / 2) ^ 2 * r.width1 + mathPi * (r.D2 / 2) ^ 2 * r.width1 +
  mathPi * (r.D3 / 2) ^ 2 * r.width2 + mathPi * (r.D4 / 2) ^ 2 * r.width2

end KimiSpeed

namespace GearOptim

/-- An evaluator outcome is a per-candidate rejection when it is `.ok none`
(Python `return None`), as opposed to an acceptance or an exception. -/
def isRejected {α : Type} (e : Except PyError (Option α)) : Bool :=
  match e with
  | .ok none => true
  | _ => false

end GearOptim

/-- A representative rational value for the 20° tooth-root factor
`π/2·cos 20° − 2·1.25·tan 20°` (float64 value ≈ 0.5660711; any rational in
the open interval (0.55, 0.7) decides every catalog root-thickness gate
identically — see the header comment). -/
def sfW : ℚ := 0.566

/-- A concrete optimizer configuration with a mixed per-gear material
assignment (`z2` polymer, the rest steel) and a one-point grid containing the
feasible candidate `m1 = m2 = 1`, `D = (20, 60, 18, 55)`, width factors
`(10, 10)`. -/
def cfgW : GearOptim.GearConfig :=
  { motor_torque := 0.8, output_torque := 5.0, max_motor_speed := 4000,
    output_speed := 350, motor_diameter := 75, min_clearance := 1.0,
    min_teeth := 17, d1_range := (20, 20), d2_range := (60, 60),
    d3_range := (18, 18), d4_range := (55, 55), step := 2,
    m1_options := [1], m2_options := [1], width_factors1 := [10],
    width_factors2 := [10], material_z1 := "steel", material_z2 := "pom",
    material_z3 := "steel", material_z4 := "steel", optimize_mode := "size",
    motor_weight := 300, sf_factor := sfW }

/-- The accepted design of `GearOptim.evaluate` at the `cfgW` grid point. -/
def c5res : GearOptim.GearResult :=
  extractAccepted (GearOptim.evaluate cfgW 1 1 20 60 18 55 10 10)

/-- `cfgW` with an unreachable tooth floor: every candidate of its (one-point)
grid is rejected at the tooth-count gate. -/
def cfgC4 : GearOptim.GearConfig :=
  { cfgW with min_teeth := 1000, d1_range := (15, 15), d2_range := (50, 50),
              d3_range := (10, 10), d4_range := (30, 30) }

/-- The result of the mixed-material check underlying `c5res` (same geometry,
torques and per-gear assignment as the `cfgW` candidate). -/
def ex8 : MaterialCheck.MaterialCheckResult :=
  extractOk (MaterialCheck.check_mixed_materials sfW
    (MaterialCheck.MaterialDatabase.init none) 1 1 20 60 18 55 10 10 0.8 2.28
    [("z1", "steel"), ("z2", "pom"), ("z3", "steel"), ("z4", "steel")] 0 0)

/-- The accepted design of `KimiSingle.evaluate_design` at
`m1 = m2 = 1`, `D = (20, 60, 18, 55)`. -/
def ksres : KimiSingle.KSResult :=
  extractAccepted (KimiSingle.evaluate_design sfW 1 1 20 60 18 55)

/-- A concrete parameter tuple for `KimiSpeed.evaluateSingleDesign` in
automatic material mode and size-optimizing mode, at the feasible point
`m1 = m2 = 1`, `D = (20, 60, 18, 55)`, width factors `(10, 10)`, with the
module's constant database and constraint constants. -/
def pW : KimiSpeed.SpeedParams :=
  { m1 := 1, m2 := 1, width_factor1 := 10, width_factor2 := 10,
    D1 := 20, D2 := 60, D3 := 18, D4 := 55, material_mode := "auto",
    db := KimiSpeed.MATERIAL_DB, opt_mode := "size", output_speed := 250,
    max_motor_speed := 4000, motor_torque := 0.8, output_torque := 4,
    motor_D := 75, motor_weight := 300 }

/-- The accepted design of `KimiSpeed.evaluateSingleDesign` at `pW`. -/
def spres : KimiSpeed.SpeedResult :=
  extractAccepted (KimiSpeed.evaluateSingleDesign sfW pW)

/-- The steel record of the two-material catalog `db9`. -/
def steel9 : KimiSpeed.SpeedMat :=
  { name := "合金钢 (20CrMnTi)", density := 7.85e-6, sigma_b := 800,
    sigma_f := 600, sf_min_ratio := 0.3, safety_factor := 2.0,
    color := "金属灰" }

/-- A light qualifying material: polymer density with a root-thickness
requirement and fatigue limit that pass at the `pW` geometry. -/
def lite9 : KimiSpeed.SpeedMat :=
  { name := "Lite", density := 1.32e-6, sigma_b := 100, sigma_f := 600,
    sf_min_ratio := 0.5, safety_factor := 2.5, color := "" }

/-- An injected two-material catalog in which the lowest-density suitable
material is not steel. -/
def db9 : List (String × KimiSpeed.SpeedMat) := [("steel", steel9), ("lite", lite9)]

/-- `pW` in weight-optimizing mode over the catalog `db9`. -/
def pW9 : KimiSpeed.SpeedParams := { pW with opt_mode := "weight", db := db9 }

/-- The accepted design of `KimiSpeed.evaluateSingleDesign` at `pW9`. -/
def sp9 : KimiSpeed.SpeedResult :=
  extractAccepted (KimiSpeed.evaluateSingleDesign sfW pW9)

/-- Inversion of a successful `Except` bind: if `e >>= f` succeeds, `e`
succeeded with some value on which `f` succeeds. -/
theorem bind_ok {ε α β : Type} {e : Except ε α} {f : α → Except ε β} {b : β}
    (h : e >>= f = .ok b) : ∃ a, e = .ok a ∧ f a = .ok b := by
  cases e with
  | ok a => exact ⟨a, rfl, h⟩
  | error er => exact absurd h (by simp [Bind.bind, Except.bind])

/-- Inversion of a successful `pure` in `Except`. -/
theorem pure_eq_ok {ε α : Type} {a b : α} (h : (pure a : Except ε α) = .ok b) :
    a = b := by
  simpa [pure, Except.pure] using h

/-- `material_check.calculate_bending_stress` always returns a 4-tuple, so
unpacking its result into two targets always raises `ValueError`. -/
theorem unpack2_bending (m : ℚ) (z : ℤ) (w t ys ye tr : ℚ) :
    unpack2 (MaterialCheck.calculate_bending_stress m z w t ys ye tr) =
      .error .valueError := by
  unfold MaterialCheck.calculate_bending_stress
  split <;> rfl

/-- Shared helper: `StrengthChecker.check_material` raises on every input
(the two-target unpacking of the 4-tuple fails before anything else runs). -/
theorem check_material_errs (sf : ℚ) (mat : MaterialCheck.Material) (m1 m2 : ℚ)
    (z1 z2 z3 z4 : ℤ) (w1 w2 t1 t2 : ℚ) :
    MaterialCheck.check_material sf mat m1 m2 z1 z2 z3 z4 w1 w2 t1 t2 =
      .error .valueError := by
  unfold MaterialCheck.check_material
  rw [unpack2_bending]
  rfl

/-- Claim C1 (status: code bug).  The specified behaviour — a
`MaterialCheckResult` whose `max_stress` is the maximum of the four per-gear
Lewis stresses and whose `suitable` flag is the conjunction of the strength
and root-thickness gates — is what the transcribed body of `check_material`
would compute, but the function never returns it: it unpacks the 4-tuple
returned by `calculate_bending_stress` into two targets, a `ValueError` on
every call, so `check_material` raises instead of producing a result. -/
theorem check_material_always_errors (sf : ℚ) (mat : MaterialCheck.Material)
    (m1 m2 : ℚ) (z1 z2 z3 z4 : ℤ) (w1 w2 t1 t2 : ℚ) :
    MaterialCheck.check_material sf mat m1 m2 z1 z2 z3 z4 w1 w2 t1 t2 =
      .error .valueError :=
  check_material_errs sf mat m1 m2 z1 z2 z3 z4 w1 w2 t1 t2

/-- Claim C2 (status: code bug).  `select_best_material` qualifies the catalog
by calling `check_material` on each key in insertion order; since
`check_material` raises `ValueError` on every call (see the unpacking bug),
the very first catalog entry aborts the selection, on every input and in
every mode — the automatic lowest-density selection and the `'steel'`
fallback described by the claim are never reached. -/
theorem select_best_material_always_errors (sf m1 m2 : ℚ) (z1 z2 z3 z4 : ℤ)
    (w1 w2 t1 t2 : ℚ) (mode : String) :
    MaterialCheck.select_best_material sf (MaterialCheck.MaterialDatabase.init none)
      m1 m2 z1 z2 z3 z4 w1 w2 t1 t2 mode = .error .valueError := by
  have hcm := check_material_errs sf
  unfold MaterialCheck.select_best_material
  simp only [hcm]
  rfl

/-- Claim C3 (status: confirmed).  Every bending-stress variant returns the
`(+inf, 0)` sentinel (the `material_check` variant as the first two components
of its 4-tuple) whenever `teeth < 12`, `face_width ≤ 0` or `module ≤ 0`, and
the infinite stress fails every `<=` comparison against a finite allowable
stress, so such a gear can never pass the strength gate. -/
theorem bending_stress_sentinel (m : ℚ) (z : ℤ) (width torque Y_S Y_eps tip : ℚ)
    (h : z < 12 ∨ width ≤ 0 ∨ m ≤ 0) :
    MaterialCheck.calculate_bending_stress m z width torque Y_S Y_eps tip =
      [.inf, .fin 0, .fin 1, .fin 1] ∧
    KimiSingle.calculate_bending_stress m z width torque = (.inf, 0) ∧
    KimiSpeed.calculate_bending_stress m z width torque = (.inf, 0) ∧
    ∀ allow : ℚ, FloatVal.le .inf (.fin allow) = false := by
  refine ⟨?_, ?_, ?_, fun _ => rfl⟩
  · unfold MaterialCheck.calculate_bending_stress
    rw [if_pos h]
  · unfold KimiSingle.calculate_bending_stress
    rw [if_pos h]
  · unfold KimiSpeed.calculate_bending_stress
    rw [if_pos h]

/-- Witness for C3: the sentinel at the concrete precondition violation
`teeth = 5`. -/
theorem bending_stress_sentinel_witness :
    MaterialCheck.calculate_bending_stress 1 5 10 1 1 0.7 0 =
      [.inf, .fin 0, .fin 1, .fin 1] ∧
    KimiSingle.calculate_bending_stress 1 5 10 1 = (.inf, 0) ∧
    KimiSpeed.calculate_bending_stress 1 5 10 1 = (.inf, 0) ∧
    ∀ allow : ℚ, FloatVal.le .inf (.fin allow) = false :=
  bending_stress_sentinel 1 5 10 1 1 0.7 0 (Or.inl (by decide))

/-- Claim C10 (status: confirmed).  `MaterialDatabase(materials or
DEFAULT_MATERIALS.copy())` treats an explicitly empty mapping like `None`
(both are falsy), silently substituting the full built-in catalog; only a
non-empty mapping actually overrides the defaults. -/
theorem empty_materials_uses_defaults :
    MaterialCheck.MaterialDatabase.init (some []) =
      ⟨MaterialCheck.DEFAULT_MATERIALS⟩ ∧
    MaterialCheck.MaterialDatabase.init none =
      ⟨MaterialCheck.DEFAULT_MATERIALS⟩ ∧
    ∀ ms : List (String × MaterialCheck.Material), ms ≠ [] →
      MaterialCheck.MaterialDatabase.init (some ms) = ⟨ms⟩ := by
  refine ⟨rfl, rfl, fun ms hms => ?_⟩
  unfold MaterialCheck.MaterialDatabase.init
  simp [hms]

/-- Witness for C10: the default catalog itself is a non-empty override, and
the explicitly empty mapping yields the full default catalog. -/
theorem empty_materials_uses_defaults_witness :
    MaterialCheck.MaterialDatabase.init (some MaterialCheck.DEFAULT_MATERIALS) =
      ⟨MaterialCheck.DEFAULT_MATERIALS⟩ ∧
    MaterialCheck.MaterialDatabase.init (some []) =
      ⟨MaterialCheck.DEFAULT_MATERIALS⟩ :=
  ⟨empty_materials_uses_defaults.2.2 MaterialCheck.DEFAULT_MATERIALS
    (by unfold MaterialCheck.DEFAULT_MATERIALS; exact List.cons_ne_nil _ _),
   empty_materials_uses_defaults.1⟩

/-- Claim C8 (status: confirmed).  Every `MaterialCheckResult` that
`check_mixed_materials` returns sets `strength_ok`, `sf_ratio_ok` and
`suitable` to one and the same boolean (the conjunction over all four gears
of that gear's strength gate and root-thickness gate), so the flags cannot
tell a caller which of the two gates failed. -/
theorem mixed_flags_equal (sf : ℚ) (db : MaterialCheck.MaterialDatabase)
    (m1 m2 : ℚ) (z1 z2 z3 z4 : ℤ) (w1 w2 t1 t2 : ℚ)
    (config : List (String × String)) (tr1 tr2 : ℚ)
    (r : MaterialCheck.MaterialCheckResult)
    (h : MaterialCheck.check_mixed_materials sf db m1 m2 z1 z2 z3 z4 w1 w2 t1 t2
      config tr1 tr2 = .ok r) :
    r.strength_ok = r.suitable ∧ r.sf_ratio_ok = r.suitable := by
  unfold MaterialCheck.check_mixed_materials at h
  obtain ⟨st, hst, h⟩ := bind_ok h
  obtain ⟨mx, hmx, h⟩ := bind_ok h
  obtain ⟨mp, hmp, h⟩ := bind_ok h
  obtain ⟨ra, hra, h⟩ := bind_ok h
  cases pure_eq_ok h
  exact ⟨rfl, rfl⟩

/-- Witness for C8: a concrete mixed-material run (steel on three gears, POM
on gear 2) whose three flags coincide. -/
theorem mixed_flags_equal_witness :
    ex8.strength_ok = ex8.suitable ∧ ex8.sf_ratio_ok = ex8.suitable :=
  mixed_flags_equal sfW (MaterialCheck.MaterialDatabase.init none) 1 1 20 60 18 55
    10 10 0.8 2.28 [("z1", "steel"), ("z2", "pom"), ("z3", "steel"), ("z4", "steel")]
    0 0 ex8 (by with_unfolding_all rfl)

/-- Shared inversion helper for `GearOptim.evaluateBody`: every accepted
design records the ratio, real diameters, achievable output torque and axial
length computed by the pipeline, and was only reached because the speed and
torque gates passed. -/
theorem evaluateBody_accept_fields {os ms mt ot md mc sf : ℚ}
    {a1 a2 a3 a4 : String} {m1 m2 : ℚ} {z1 z2 z3 z4 : ℤ} {wf1 wf2 : ℚ}
    {r : GearOptim.GearResult}
    (h : GearOptim.evaluateBody os ms mt ot md mc sf a1 a2 a3 a4 m1 m2 z1 z2 z3 z4
      wf1 wf2 = .ok (some r)) :
    r.ratio = ((z2 : ℚ) / (z1 : ℚ)) * ((z4 : ℚ) / (z3 : ℚ)) ∧
    r.d1 = (z1 : ℚ) * m1 ∧ r.d2 = (z2 : ℚ) * m1 ∧
    r.d3 = (z3 : ℚ) * m2 ∧ r.d4 = (z4 : ℚ) * m2 ∧
    r.output_torque = mt * r.ratio * 0.9025 ∧
    ¬ os * r.ratio > ms ∧ ¬ r.output_torque < ot ∧
    r.total_size = md / 2 + r.d1 / 2 + r.d2 / 2 + r.d3 / 2 + r.d4 / 2 := by
  unfold GearOptim.evaluateBody at h
  dsimp only at h
  split at h
  · exact Option.noConfusion (Except.ok.inj h)
  · split at h
    · exact Option.noConfusion (Except.ok.inj h)
    · split at h
      · exact Option.noConfusion (Except.ok.inj h)
      · split at h
        · exact Option.noConfusion (Except.ok.inj h)
        · obtain ⟨result, hres, h⟩ := bind_ok h
          split at h
          · exact Option.noConfusion (pure_eq_ok h)
          · obtain ⟨mxp, hmxp, h⟩ := bind_ok h
            obtain ⟨wg, hwg, h⟩ := bind_ok h
            cases Option.some.inj (pure_eq_ok h)
            refine ⟨rfl, rfl, rfl, rfl, rfl, rfl, ?_, ?_, rfl⟩ <;> assumption

/-- Shared inversion helper for `KimiSingle.evaluate_design`: every accepted
design's reported axial length is the motor radius plus all four pitch
radii. -/
theorem evaluate_design_accept_total_size {sf m1 m2 D1 D2 D3 D4 : ℚ}
    {r : KimiSingle.KSResult}
    (h : KimiSingle.evaluate_design sf m1 m2 D1 D2 D3 D4 = .ok (some r)) :
    r.total_size = KimiSingle.MOTOR_D / 2 + r.D1 / 2 + r.D2 / 2 + r.D3 / 2 + r.D4 / 2 := by
  unfold KimiSingle.evaluate_design at h
  dsimp only at h
  split at h
  · exact Option.noConfusion (pure_eq_ok h)
  · split at h
    · exact Option.noConfusion (pure_eq_ok h)
    · split at h
      · exact Option.noConfusion (pure_eq_ok h)
      · split at h
        · exact Option.noConfusion (pure_eq_ok h)
        · split at h
          · exact Option.noConfusion (pure_eq_ok h)
          · obtain ⟨first_check, hfc, h⟩ := bind_ok h
            split at h
            · exact Option.noConfusion (pure_eq_ok h)
            · obtain ⟨props, hpr, h⟩ := bind_ok h
              cases Option.some.inj (pure_eq_ok h)
              rfl

/-- Shared inversion helper for `KimiSpeed.evaluateSingleDesign`: every
accepted design records the torque, speed, axial-length and weight values
computed by the pipeline, was only reached because the speed and torque gates
passed, and in automatic material mode with an available steel entry its
comparison metric is the mass priced at steel density (weight mode) or the
axial length (size mode). -/
theorem evalSingle_accept_fields {sf : ℚ} {p : KimiSpeed.SpeedParams}
    {r : KimiSpeed.SpeedResult}
    (h : KimiSpeed.evaluateSingleDesign sf p = .ok (some r)) :
    r.output_torque = p.motor_torque * r.Total_Ratio * 0.95 * 0.95 ∧
    ¬ r.output_torque < p.output_torque ∧
    r.desired_motor_speed = p.output_speed * r.Total_Ratio ∧
    ¬ r.desired_motor_speed > p.max_motor_speed ∧
    r.total_size = p.motor_D / 2 + r.D1 / 2 + r.D2 / 2 + r.D3 / 2 + r.D4 ∧
    r.gear_weight_g = 0.5 * KimiSpeed.volSum r * r.material_density * 1000 ∧
    (∀ st, p.material_mode = "auto" → p.db.lookup "steel" = some st →
      r.metric = if p.opt_mode = "weight"
        then 0.5 * KimiSpeed.volSum r * st.density else r.total_size) := by
  unfold KimiSpeed.evaluateSingleDesign at h
  dsimp only at h
  split at h
  · exact Option.noConfusion (pure_eq_ok h)
  · split at h
    · exact Option.noConfusion (pure_eq_ok h)
    · split at h
      · exact Option.noConfusion (pure_eq_ok h)
      · split at h
        · exact Option.noConfusion (pure_eq_ok h)
        · split at h
          · exact Option.noConfusion (pure_eq_ok h)
          · split at h
            · exact Option.noConfusion (pure_eq_ok h)
            · obtain ⟨td, htd, h⟩ := bind_ok h
              obtain ⟨selRes, hsel, h⟩ := bind_ok h
              split at h
              · exact Option.noConfusion (pure_eq_ok h)
              · split at h
                · exact Option.noConfusion (pure_eq_ok h)
                · obtain ⟨mp, hmp, h⟩ := bind_ok h
                  cases Option.some.inj (pure_eq_ok h)
                  refine ⟨rfl, ?_, rfl, ?_, rfl, ?_, ?_⟩
                  · assumption
                  · assumption
                  · dsimp only [KimiSpeed.volSum]
                  · intro st hmode hlk
                    have htd2 : td = st.density := by
                      unfold KimiSpeed.tempDensity at htd
                      rw [hmode] at htd
                      simp [dictGetItem, hlk, Bind.bind, Except.bind, pure,
                        Except.pure] at htd
                      exact htd.symm
                    subst htd2
                    dsimp only [KimiSpeed.volSum]

/-- Shared inversion helper for `GearOptim.evaluate`: every accepted design
records the achievable output torque and the axial envelope length computed
by the pipeline, and was only reached because the speed and torque gates
passed. -/
theorem evaluate_accept_fields {cfg : GearOptim.GearConfig} {m1 m2 : ℚ}
    {d1 d2 d3 d4 : ℕ} {wf1 wf2 : ℚ} {r : GearOptim.GearResult}
    (h : GearOptim.evaluate cfg m1 m2 d1 d2 d3 d4 wf1 wf2 = .ok (some r)) :
    r.output_torque = cfg.motor_torque * r.ratio * 0.9025 ∧
    ¬ cfg.output_speed * r.ratio > cfg.max_motor_speed ∧
    ¬ r.output_torque < cfg.output_torque ∧
    r.total_size = cfg.motor_diameter / 2 + r.d1 / 2 + r.d2 / 2 + r.d3 / 2 + r.d4 / 2 := by
  unfold GearOptim.evaluate at h
  dsimp only at h
  split at h
  · exact Option.noConfusion (Except.ok.inj h)
  · obtain ⟨hrat, _, _, _, _, htq, hsp, hlt, hts⟩ := evaluateBody_accept_fields h
    exact ⟨htq, hsp, hlt, hts⟩

/-- Claim C5 (status: confirmed).  Every accepted design of
`GearOptimizer.evaluate` and of `evaluate_single_design` satisfies both
performance postconditions: the achievable output torque
(motor torque × total ratio × 0.95²) meets the configured requirement
non-strictly, and the required motor speed (output speed × total ratio) does
not exceed the configured maximum. -/
theorem accepted_meets_torque_and_speed :
    (∀ (cfg : GearOptim.GearConfig) (m1 m2 : ℚ) (d1 d2 d3 d4 : ℕ)
       (wf1 wf2 : ℚ) (r : GearOptim.GearResult),
       GearOptim.evaluate cfg m1 m2 d1 d2 d3 d4 wf1 wf2 = .ok (some r) →
       r.output_torque = cfg.motor_torque * r.ratio * 0.9025 ∧
       cfg.output_torque ≤ r.output_torque ∧
       cfg.output_speed * r.ratio ≤ cfg.max_motor_speed) ∧
    (∀ (sf : ℚ) (p : KimiSpeed.SpeedParams) (r : KimiSpeed.SpeedResult),
       KimiSpeed.evaluateSingleDesign sf p = .ok (some r) →
       r.output_torque = p.motor_torque * r.Total_Ratio * 0.95 * 0.95 ∧
       p.output_torque ≤ r.output_torque ∧
       r.desired_motor_speed = p.output_speed * r.Total_Ratio ∧
       r.desired_motor_speed ≤ p.max_motor_speed) := by
  constructor
  · intro cfg m1 m2 d1 d2 d3 d4 wf1 wf2 r h
    obtain ⟨htq, hsp, hlt, _⟩ := evaluate_accept_fields h
    exact ⟨htq, not_lt.mp hlt, not_lt.mp hsp⟩
  · intro sf p r h
    obtain ⟨htq, hlt, hspeq, hsp, _⟩ := evalSingle_accept_fields h
    exact ⟨htq, not_lt.mp hlt, hspeq, not_lt.mp hsp⟩

/-- Witness for C5: both evaluators at concrete accepted designs. -/
theorem accepted_meets_torque_and_speed_witness :
    (c5res.output_torque = cfgW.motor_torque * c5res.ratio * 0.9025 ∧
     cfgW.output_torque ≤ c5res.output_torque ∧
     cfgW.output_speed * c5res.ratio ≤ cfgW.max_motor_speed) ∧
    (spres.output_torque = pW.motor_torque * spres.Total_Ratio * 0.95 * 0.95 ∧
     pW.output_torque ≤ spres.output_torque ∧
     spres.desired_motor_speed = pW.output_speed * spres.Total_Ratio ∧
     spres.desired_motor_speed ≤ pW.max_motor_speed) :=
  ⟨accepted_meets_torque_and_speed.1 cfgW 1 1 20 60 18 55 10 10 c5res
     (by with_unfolding_all rfl),
   accepted_meets_torque_and_speed.2 sfW pW spres (by with_unfolding_all rfl)⟩

/-- Counterexample to claim C6 as stated: `evaluate_single_design` accepts a
design with real diameters (20, 60, 18, 55) and motor diameter 75 whose
reported axial length is 141.5 — the last driven gear contributes its full
diameter `D4`, not the radius `D4/2`, so the claimed formula (value 114) does
not hold in this evaluator variant. -/
theorem total_size_claim_counterexample :
    KimiSpeed.evaluateSingleDesign sfW pW = .ok (some spres) ∧
    spres.D1 = 20 ∧ spres.D2 = 60 ∧ spres.D3 = 18 ∧ spres.D4 = 55 ∧
    pW.motor_D = 75 ∧ spres.total_size = 283 / 2 ∧
    (283 / 2 : ℚ) ≠ 75 / 2 + 20 / 2 + 60 / 2 + 18 / 2 + 55 / 2 :=
  ⟨by with_unfolding_all rfl, by with_unfolding_all rfl, by with_unfolding_all rfl,
   by with_unfolding_all rfl, by with_unfolding_all rfl, rfl,
   by with_unfolding_all rfl, by norm_num⟩

/-- Claim C6, amended (status: corrected).  The axial envelope length of an
accepted design equals motor radius plus the four pitch radii in
`GearOptimizer.evaluate` and in `kimi_proposal_single.evaluate_design`;
`kimi_proposal_speed.evaluate_single_design` instead adds the full diameter
of the final driven gear: motor radius + D1/2 + D2/2 + D3/2 + D4. -/
theorem total_size_per_variant :
    (∀ (cfg : GearOptim.GearConfig) (m1 m2 : ℚ) (d1 d2 d3 d4 : ℕ)
       (wf1 wf2 : ℚ) (r : GearOptim.GearResult),
       GearOptim.evaluate cfg m1 m2 d1 d2 d3 d4 wf1 wf2 = .ok (some r) →
       r.total_size = cfg.motor_diameter / 2 + r.d1 / 2 + r.d2 / 2 + r.d3 / 2 + r.d4 / 2) ∧
    (∀ (sf m1 m2 D1 D2 D3 D4 : ℚ) (r : KimiSingle.KSResult),
       KimiSingle.evaluate_design sf m1 m2 D1 D2 D3 D4 = .ok (some r) →
       r.total_size = KimiSingle.MOTOR_D / 2 + r.D1 / 2 + r.D2 / 2 + r.D3 / 2 + r.D4 / 2) ∧
    (∀ (sf : ℚ) (p : KimiSpeed.SpeedParams) (r : KimiSpeed.SpeedResult),
       KimiSpeed.evaluateSingleDesign sf p = .ok (some r) →
       r.total_size = p.motor_D / 2 + r.D1 / 2 + r.D2 / 2 + r.D3 / 2 + r.D4) :=
  ⟨fun _ _ _ _ _ _ _ _ _ _ h => (evaluate_accept_fields h).2.2.2,
   fun _ _ _ _ _ _ _ _ h => evaluate_design_accept_total_size h,
   fun _ _ _ h => (evalSingle_accept_fields h).2.2.2.2.1⟩

/-- Witness for the amended C6: all three evaluators at concrete accepted
designs. -/
theorem total_size_per_variant_witness :
    c5res.total_size = cfgW.motor_diameter / 2 + c5res.d1 / 2 + c5res.d2 / 2 +
      c5res.d3 / 2 + c5res.d4 / 2 ∧
    ksres.total_size = KimiSingle.MOTOR_D / 2 + ksres.D1 / 2 + ksres.D2 / 2 +
      ksres.D3 / 2 + ksres.D4 / 2 ∧
    spres.total_size = pW.motor_D / 2 + spres.D1 / 2 + spres.D2 / 2 +
      spres.D3 / 2 + spres.D4 :=
  ⟨total_size_per_variant.1 cfgW 1 1 20 60 18 55 10 10 c5res
     (by with_unfolding_all rfl),
   total_size_per_variant.2.1 sfW 1 1 20 60 18 55 ksres
     (by with_unfolding_all rfl),
   total_size_per_variant.2.2 sfW pW spres (by with_unfolding_all rfl)⟩

/-- Claim C7 (status: confirmed).  For a fixed grid point and otherwise
identical configuration, raising the minimum tooth-count floor can only
shrink or preserve the feasible set: a candidate accepted under floor `b` is
(identically) evaluated and accepted under any floor `a ≤ b`, since the floor
is read only by the tooth-count gate. -/
theorem feasible_set_antitone_in_min_teeth (cfg : GearOptim.GearConfig)
    (a b : ℤ) (m1 m2 : ℚ) (d1 d2 d3 d4 : ℕ) (wf1 wf2 : ℚ) (hab : a ≤ b)
    (hacc : GearOptim.isAccepted (GearOptim.evaluate { cfg with min_teeth := b }
      m1 m2 d1 d2 d3 d4 wf1 wf2) = true) :
    GearOptim.evaluate { cfg with min_teeth := a } m1 m2 d1 d2 d3 d4 wf1 wf2 =
      GearOptim.evaluate { cfg with min_teeth := b } m1 m2 d1 d2 d3 d4 wf1 wf2 ∧
    GearOptim.isAccepted (GearOptim.evaluate { cfg with min_teeth := a }
      m1 m2 d1 d2 d3 d4 wf1 wf2) = true := by
  have key : GearOptim.evaluate { cfg with min_teeth := a } m1 m2 d1 d2 d3 d4 wf1 wf2 =
      GearOptim.evaluate { cfg with min_teeth := b } m1 m2 d1 d2 d3 d4 wf1 wf2 := by
    by_cases hb : min (min (min (pyRound ((d1 : ℚ) / m1)) (pyRound ((d2 : ℚ) / m1)))
        (pyRound ((d3 : ℚ) / m2))) (pyRound ((d4 : ℚ) / m2)) < b
    · exfalso
      unfold GearOptim.evaluate at hacc
      dsimp only at hacc
      rw [if_pos hb] at hacc
      simp [GearOptim.isAccepted] at hacc
    · have ha : ¬ min (min (min (pyRound ((d1 : ℚ) / m1)) (pyRound ((d2 : ℚ) / m1)))
          (pyRound ((d3 : ℚ) / m2))) (pyRound ((d4 : ℚ) / m2)) < a :=
        fun hlt => hb (lt_of_lt_of_le hlt hab)
      unfold GearOptim.evaluate
      dsimp only
      rw [if_neg ha, if_neg hb]
  exact ⟨key, key ▸ hacc⟩

/-- Witness for C7: the `cfgW` candidate (minimum tooth count 18 across its
four gears) is accepted under floor 18, evaluates identically under floor 17,
and so is also accepted there. -/
theorem feasible_set_antitone_in_min_teeth_witness :
    (GearOptim.evaluate { cfgW with min_teeth := 17 } 1 1 20 60 18 55 10 10 =
      GearOptim.evaluate { cfgW with min_teeth := 18 } 1 1 20 60 18 55 10 10) ∧
    GearOptim.isAccepted (GearOptim.evaluate { cfgW with min_teeth := 17 }
      1 1 20 60 18 55 10 10) = true :=
  feasible_set_antitone_in_min_teeth cfgW 17 18 1 1 20 60 18 55 10 10
    (by decide) (by with_unfolding_all rfl)

/-- Shared helper for C4: when every candidate of a list is rejected, the
search fold passes its state through unchanged (no exception, no feasible
count, no best update). -/
theorem foldlM_all_rejected (cfg : GearOptim.GearConfig)
    (l : List GearOptim.Cand) (st : Option GearOptim.GearResult × FloatVal × ℕ)
    (hl : ∀ c ∈ l, GearOptim.isRejected (GearOptim.evalTuple cfg c) = true) :
    l.foldlM (GearOptim.optStep cfg) st = .ok st := by
  induction l generalizing st with
  | nil => rfl
  | cons c cs ih =>
    have hc := hl c (List.mem_cons_self c cs)
    have hev : GearOptim.evalTuple cfg c = .ok none := by
      cases hval : GearOptim.evalTuple cfg c with
      | ok o =>
        cases o with
        | none => rfl
        | some r => rw [hval] at hc; exact absurd hc (by simp [GearOptim.isRejected])
      | error e => rw [hval] at hc; exact absurd hc (by simp [GearOptim.isRejected])
    have hstep : GearOptim.optStep cfg st c = .ok st := by
      unfold GearOptim.optStep
      rw [hev]
      rfl
    show GearOptim.optStep cfg st c >>= _ = .ok st
    rw [hstep]
    exact ih st (fun x hx => hl x (List.mem_cons_of_mem c hx))

/-- Claim C4 (status: confirmed).  When every candidate point of the grid is
rejected, `GearOptimizer.optimize` still completes the sweep without raising
and returns the explicit no-feasible-design outcome: no best result together
with a zero feasible count (and the full grid size). -/
theorem optimize_empty_feasible_set (cfg : GearOptim.GearConfig)
    (hall : ∀ c ∈ GearOptim.candidates cfg,
      GearOptim.isRejected (GearOptim.evalTuple cfg c) = true) :
    GearOptim.optimize cfg = .ok (none, 0, GearOptim.totalCount cfg) := by
  unfold GearOptim.optimize
  rw [foldlM_all_rejected cfg (GearOptim.candidates cfg) (none, .inf, 0) hall]
  rfl

/-- Witness for C4: under the unreachable tooth floor of `cfgC4` its single
grid candidate is rejected, and the optimizer reports no best design and a
zero feasible count over the full grid. -/
theorem optimize_empty_feasible_set_witness :
    GearOptim.optimize cfgC4 = .ok (none, 0, GearOptim.totalCount cfgC4) :=
  optimize_empty_feasible_set cfgC4 (by with_unfolding_all decide)

/-- Claim C9 (status: confirmed).  In automatic material mode with weight
optimization, `evaluate_single_design` prices the comparison metric with the
steel catalog entry's density while the reported `gear_weight_g` uses the
finally selected material's density; and at a concrete accepted candidate
whose selected material is lighter than steel the two figures disagree. -/
theorem weight_metric_uses_steel_density :
    (∀ (sf : ℚ) (p : KimiSpeed.SpeedParams) (r : KimiSpeed.SpeedResult)
       (st : KimiSpeed.SpeedMat),
       KimiSpeed.evaluateSingleDesign sf p = .ok (some r) →
       p.material_mode = "auto" → p.opt_mode = "weight" →
       p.db.lookup "steel" = some st →
       r.metric = 0.5 * KimiSpeed.volSum r * st.density ∧
       r.gear_weight_g = 0.5 * KimiSpeed.volSum r * r.material_density * 1000) ∧
    (KimiSpeed.evaluateSingleDesign sfW pW9 = .ok (some sp9) ∧
     sp9.material_key = "lite" ∧ sp9.material_density ≠ steel9.density ∧
     sp9.metric * 1000 ≠ sp9.gear_weight_g) := by
  constructor
  · intro sf p r st h hmode hopt hlk
    obtain ⟨_, _, _, _, _, hw, hm⟩ := evalSingle_accept_fields h
    refine ⟨?_, hw⟩
    have hmet := hm st hmode hlk
    rw [hopt] at hmet
    simpa using hmet
  · exact ⟨by with_unfolding_all rfl, by with_unfolding_all rfl,
      by with_unfolding_all decide, by with_unfolding_all decide⟩

/-- Witness for C9: the accepted `pW9` candidate, whose selected material is
the light qualifying entry while the metric is priced at the steel entry. -/
theorem weight_metric_uses_steel_density_witness :
    sp9.metric = 0.5 * KimiSpeed.volSum sp9 * steel9.density ∧
    sp9.gear_weight_g = 0.5 * KimiSpeed.volSum sp9 * sp9.material_density * 1000 :=
  weight_metric_uses_steel_density.1 sfW pW9 sp9 steel9
    (by with_unfolding_all rfl) rfl rfl (by with_unfolding_all rfl)
